import Mathlib

/-!
Verification of the animeheaven-downloader repository.

Python strings are modelled as `List Char`, Python `int` values as `Int`,
byte streams as `List Nat`.  HTML parsing (BeautifulSoup) and the regex
engine are modelled as oracles: a page structure carries the result of each
selector query as a field, while all the surrounding control flow, string
manipulation and list processing are translated directly from the source.
-/

/-! ## Python string and list primitives -/

/-- Python str.replace applied to remove every space, as in text.replace in
bot.py line 366 and complete_bot.py line 274. -/
def stripSpaces (s : List Char) : List Char := s.filter (fun c => decide (c ≠ ' '))

/-- Python str.split with a one-character separator: keeps empty fields, and
splitting the empty string yields one empty field. -/
def pySplit (sep : Char) : List Char → List (List Char)
  | [] => [[]]
  | c :: cs =>
    if c = sep then [] :: pySplit sep cs
    else
      match pySplit sep cs with
      | [] => [[c]]
      | p :: ps => (c :: p) :: ps

/-- Python str.strip with no argument: drop leading and trailing whitespace. -/
def pyStrip (s : List Char) : List Char :=
  ((s.dropWhile Char.isWhitespace).reverse.dropWhile Char.isWhitespace).reverse

/-- Value of a list of ASCII digits read in base 10. -/
def digitsToNat (l : List Char) : Nat := l.foldl (fun a c => 10 * a + (c.toNat - 48)) 0

/-- Python int applied to a string: surrounding whitespace is stripped, then an
optional sign must be followed by one or more ASCII digits; any other shape
raises ValueError, modelled as none. -/
def pyInt (s : List Char) : Option Int :=
  match pyStrip s with
  | '-' :: rest =>
    if !rest.isEmpty && rest.all Char.isDigit then some (-(digitsToNat rest : Int)) else none
  | '+' :: rest =>
    if !rest.isEmpty && rest.all Char.isDigit then some ((digitsToNat rest : Int)) else none
  | t =>
    if !t.isEmpty && t.all Char.isDigit then some ((digitsToNat t : Int)) else none

/-- Python range from s to e inclusive, i.e. range with end argument e + 1. -/
def pyRangeIncl (s e : Int) : List Int :=
  (List.range (e + 1 - s).toNat).map (fun i => s + i)

/-- Insert an integer into a strictly increasing list, keeping it strictly
increasing and dropping the insertion when the value is already present. -/
def insertSorted (x : Int) : List Int → List Int
  | [] => [x]
  | y :: ys => if x < y then x :: y :: ys else if x = y then y :: ys else y :: insertSorted x ys

/-- Python sorted applied to a set: the strictly increasing enumeration of the
distinct elements of the list. -/
def pySortedSet (l : List Int) : List Int := l.foldr insertSorted []

/-- Python substring membership test, sub in s, for character lists. -/
def isSubstr (sub : List Char) : List Char → Bool
  | [] => sub.isEmpty
  | c :: cs => sub.isPrefixOf (c :: cs) || isSubstr sub cs

/-- Python str.lower, modelled with the library character lower-casing. -/
def pyLower (s : List Char) : List Char := s.map Char.toLower

/-- Decimal numeral of a natural number, as a character list. -/
def natChars (n : Nat) : List Char := (Nat.repr n).toList

/-! ### Lemmas about the primitives -/

theorem mem_insertSorted (a x : Int) (l : List Int) :
    a ∈ insertSorted x l ↔ a = x ∨ a ∈ l := by
  induction l with
  | nil => simp [insertSorted]
  | cons y ys ih =>
    simp only [insertSorted]
    split
    · simp [List.mem_cons]
    · split
      · rename_i h1 h2
        subst h2
        simp [List.mem_cons]
      · simp [List.mem_cons, ih]
        tauto

theorem sorted_insertSorted (x : Int) (l : List Int) (h : List.Sorted (· < ·) l) :
    List.Sorted (· < ·) (insertSorted x l) := by
  induction l with
  | nil => simp [insertSorted]
  | cons y ys ih =>
    simp only [insertSorted]
    rw [List.sorted_cons] at h
    obtain ⟨hy, hs⟩ := h
    split
    · rename_i hlt
      refine List.Pairwise.cons ?_ (List.Pairwise.cons hy hs)
      intro b hb
      rcases List.mem_cons.mp hb with rfl | hb
      · exact hlt
      · exact lt_trans hlt (hy b hb)
    · split
      · exact List.Pairwise.cons hy hs
      · rename_i hnlt hne
        refine List.Pairwise.cons ?_ (ih hs)
        intro b hb
        rcases (mem_insertSorted b x ys).mp hb with rfl | hb
        · omega
        · exact hy b hb

theorem length_insertSorted_le (x : Int) (l : List Int) :
    (insertSorted x l).length ≤ l.length + 1 := by
  induction l with
  | nil => simp [insertSorted]
  | cons y ys ih =>
    simp only [insertSorted]
    split
    · simp
    · split
      · simp
      · simpa using Nat.succ_le_succ ih

theorem insertSorted_ne_nil (x : Int) (l : List Int) : insertSorted x l ≠ [] := by
  cases l with
  | nil => simp [insertSorted]
  | cons y ys =>
    simp only [insertSorted]
    split
    · simp
    · split <;> simp

theorem pySortedSet_sorted (l : List Int) : List.Sorted (· < ·) (pySortedSet l) := by
  induction l with
  | nil => simp [pySortedSet]
  | cons x xs ih => exact sorted_insertSorted x _ ih

theorem mem_pySortedSet (a : Int) (l : List Int) : a ∈ pySortedSet l ↔ a ∈ l := by
  induction l with
  | nil => simp [pySortedSet]
  | cons x xs ih =>
    simp only [pySortedSet, List.foldr_cons] at *
    rw [mem_insertSorted]
    simp [ih]

theorem length_pySortedSet_le (l : List Int) : (pySortedSet l).length ≤ l.length := by
  induction l with
  | nil => simp [pySortedSet]
  | cons x xs ih =>
    simp only [pySortedSet, List.foldr_cons] at *
    calc (insertSorted x (List.foldr insertSorted [] xs)).length
        ≤ (List.foldr insertSorted [] xs).length + 1 := length_insertSorted_le _ _
      _ ≤ xs.length + 1 := Nat.succ_le_succ ih

theorem pySortedSet_eq_nil_iff (l : List Int) : pySortedSet l = [] ↔ l = [] := by
  cases l with
  | nil => simp [pySortedSet]
  | cons x xs =>
    simp only [pySortedSet, List.foldr_cons]
    constructor
    · intro h
      exact absurd h (insertSorted_ne_nil x _)
    · intro h
      exact absurd h (by simp)

theorem pySplit_of_not_contains (sep : Char) (l : List Char)
    (h : l.contains sep = false) : pySplit sep l = [l] := by
  induction l with
  | nil => simp [pySplit]
  | cons c cs ih =>
    simp only [List.contains_cons, Bool.or_eq_false_iff] at h
    obtain ⟨h1, h2⟩ := h
    have hc : c ≠ sep := by
      intro hcc
      subst hcc
      simp at h1
    simp only [pySplit, if_neg hc, ih h2]

/-! ## The three episode-range parsers

Each parser is translated independently from its own source file; they share
only the Python-builtin primitives above.  A failed Python int conversion or
tuple unpacking raises ValueError, modelled as an Option-valued core that the
outer function maps to the empty list (the surrounding try/except). -/

namespace Bot

/-- Loop body of AnimeDownloaderBot.parse_episode_range, bot.py lines 368-375:
a part is either a dash range, unpacked into exactly two int fields, or a
single int. -/
def parsePart (part : List Char) : Option (List Int) :=
  if part.contains '-' then
    match pySplit '-' part with
    | [a, b] => do
      let s ← pyInt a
      let e ← pyInt b
      pure (pyRangeIncl s e)
    | _ => none
  else
    (pyInt part).map (fun n => [n])

/-- The for-loop of bot.py lines 368-375 over the comma-separated parts; the
first failing part aborts the whole parse. -/
def parseParts : List (List Char) → Option (List Int)
  | [] => some []
  | p :: ps => do
    let x ← parsePart p
    let rest ← parseParts ps
    pure (x ++ rest)

/-- AnimeDownloaderBot.parse_episode_range, bot.py lines 360-384: spaces are
removed, the text is split on commas, each part parsed, then the result is
deduplicated, sorted and capped at 10 episodes; any parse error yields []. -/
def parse_episode_range (text : List Char) : List Int :=
  match parseParts (pySplit ',' (stripSpaces text)) with
  | some eps => (pySortedSet eps).take 10
  | none => []

end Bot

namespace CompleteBot

/-- The branch on the space-stripped text in CompleteAnimeBot.
parse_episode_range, complete_bot.py lines 276-285: a dash anywhere makes the
whole text one range, otherwise a comma makes it a plain list of ints,
otherwise it is a single int. -/
def epsCore (t : List Char) : Option (List Int) :=
  if t.contains '-' then
    match pySplit '-' t with
    | [a, b] => do
      let s ← pyInt a
      let e ← pyInt b
      pure (pyRangeIncl s e)
    | _ => none
  else if t.contains ',' then
    (pySplit ',' t).mapM pyInt
  else
    (pyInt t).map (fun n => [n])

/-- CompleteAnimeBot.parse_episode_range, complete_bot.py lines 270-292: after
removing spaces the text is parsed by the branch above, episodes outside
1..1000 are filtered out, then the result is deduplicated, sorted and capped
at 10; any parse error yields []. -/
def parse_episode_range (text : List Char) : List Int :=
  match epsCore (stripSpaces text) with
  | some eps => (pySortedSet (eps.filter (fun e => decide (1 ≤ e ∧ e ≤ 1000)))).take 10
  | none => []

end CompleteBot

namespace Helper

/-- Loop body of the comma branch of get_episodes, plugins/helper.py lines
28-33: identical text to the loop body in bot.py. -/
def partEpisodes (part : List Char) : Option (List Int) :=
  if part.contains '-' then
    match pySplit '-' part with
    | [a, b] => do
      let s ← pyInt a
      let e ← pyInt b
      pure (pyRangeIncl s e)
    | _ => none
  else
    (pyInt part).map (fun n => [n])

/-- The for-loop of plugins/helper.py lines 28-33 over the comma parts. -/
def collectParts : List (List Char) → Option (List Int)
  | [] => some []
  | p :: ps => do
    let x ← partEpisodes p
    let rest ← collectParts ps
    pure (x ++ rest)

/-- The branch structure of get_episodes, plugins/helper.py lines 25-40: a
comma splits the text into parts (each a range or a single int), otherwise a
dash makes the whole text a range, otherwise it is a single int. -/
def epsCore (ep : List Char) : Option (List Int) :=
  if ep.contains ',' then
    collectParts (pySplit ',' ep)
  else if ep.contains '-' then
    match pySplit '-' ep with
    | [a, b] => do
      let s ← pyInt a
      let e ← pyInt b
      pure (pyRangeIncl s e)
    | _ => none
  else
    (pyInt ep).map (fun n => [n])

/-- get_episodes, plugins/helper.py lines 20-47: the branch above, then the
result is deduplicated and sorted, with no cap and no space removal; a
ValueError yields []. -/
def get_episodes (ep : List Char) : List Int :=
  match epsCore ep with
  | some eps =>
    let sorted := pySortedSet eps
    if sorted.isEmpty then [] else sorted
  | none => []

end Helper

/-! ### Agreement and disagreement of the three parsers (claims C1 and C8) -/

theorem helper_partEpisodes_eq_bot : Helper.partEpisodes = Bot.parsePart := rfl

theorem helper_collectParts_eq_bot (ps : List (List Char)) :
    Helper.collectParts ps = Bot.parseParts ps := by
  induction ps with
  | nil => rfl
  | cons p ps ih =>
    simp only [Helper.collectParts, Bot.parseParts, helper_partEpisodes_eq_bot, ih]

theorem bot_parseParts_single (t : List Char) : Bot.parseParts [t] = Bot.parsePart t := by
  cases h : Bot.parsePart t with
  | none => simp [Bot.parseParts, h]
  | some x => simp [Bot.parseParts, h]

theorem helper_epsCore_eq_bot (t : List Char) :
    Helper.epsCore t = Bot.parseParts (pySplit ',' t) := by
  by_cases hc : t.contains ',' = true
  · simp only [Helper.epsCore, hc, if_true, helper_collectParts_eq_bot]
  · have hc' : t.contains ',' = false := by simpa using hc
    rw [pySplit_of_not_contains _ _ hc', bot_parseParts_single]
    simp only [Helper.epsCore, Bot.parsePart, hc', Bool.false_eq_true, if_false]

theorem complete_epsCore_eq_bot (t : List Char) (hc : t.contains ',' = false) :
    CompleteBot.epsCore t = Bot.parseParts (pySplit ',' t) := by
  rw [pySplit_of_not_contains _ _ hc, bot_parseParts_single]
  simp only [CompleteBot.epsCore, Bot.parsePart, hc, Bool.false_eq_true, if_false]

/-- C1 is false as stated: the three episode-range parsers do not agree.  On
the input 1,3-5 the complete_bot.py parser returns the empty list (its dash
branch tries to read 1,3 as an int) while the bot.py and plugins/helper.py
parsers both return [1, 3, 4, 5]. -/
theorem c1_parsers_disagree :
    CompleteBot.parse_episode_range ("1,3-5".toList) = [] ∧
    Bot.parse_episode_range ("1,3-5".toList) = [1, 3, 4, 5] ∧
    Helper.get_episodes ("1,3-5".toList) = [1, 3, 4, 5] ∧
    CompleteBot.parse_episode_range ("1,3-5".toList) ≠
      Bot.parse_episode_range ("1,3-5".toList) :=
  ⟨by decide, by decide, by decide, by decide⟩

/-- C1 (amended): bot.py parse_episode_range and helper.py get_episodes agree
on every input up to the two cosmetic differences (bot.py removes spaces first
and caps the result at 10 episodes); complete_bot.py parse_episode_range
additionally agrees on every input that is comma-free after space removal,
provided the parsed episodes all lie in 1..1000 and number at most 10. -/
theorem c1_parsers_agree_amended (s : List Char) :
    Bot.parse_episode_range s = (Helper.get_episodes (stripSpaces s)).take 10 ∧
    ((stripSpaces s).contains ',' = false →
      (∀ x ∈ Helper.get_episodes (stripSpaces s), 1 ≤ x ∧ x ≤ 1000) →
      (Helper.get_episodes (stripSpaces s)).length ≤ 10 →
      CompleteBot.parse_episode_range s = Helper.get_episodes (stripSpaces s)) := by
  constructor
  · unfold Bot.parse_episode_range Helper.get_episodes
    rw [helper_epsCore_eq_bot]
    cases h : Bot.parseParts (pySplit ',' (stripSpaces s)) with
    | none => simp
    | some eps =>
      by_cases he : pySortedSet eps = []
      · simp [he]
      · simp only []
        have hne : (pySortedSet eps).isEmpty = false := by
          cases hh : pySortedSet eps with
          | nil => exact absurd hh he
          | cons a as => simp
        simp [hne]
  · intro hc hb hl
    unfold CompleteBot.parse_episode_range
    unfold Helper.get_episodes at hb hl ⊢
    rw [complete_epsCore_eq_bot _ hc]
    rw [helper_epsCore_eq_bot] at hb hl ⊢
    cases h : Bot.parseParts (pySplit ',' (stripSpaces s)) with
    | none => simp
    | some eps =>
      rw [h] at hb hl
      by_cases he : pySortedSet eps = []
      · have heps : eps = [] := (pySortedSet_eq_nil_iff eps).mp he
        subst heps
        simp [he]
      · have hne : (pySortedSet eps).isEmpty = false := by
          cases hh : pySortedSet eps with
          | nil => exact absurd hh he
          | cons a as => simp
        simp only [hne, Bool.false_eq_true, if_false] at hb hl ⊢
        have hfilter : eps.filter (fun e => decide (1 ≤ e ∧ e ≤ 1000)) = eps := by
          apply List.filter_eq_self.mpr
          intro x hx
          exact decide_eq_true (hb x ((mem_pySortedSet x eps).mpr hx))
        rw [hfilter]
        exact List.take_of_length_le hl

/-- Concrete instance of the amended C1 at the input 2-4: all three parsers
return [2, 3, 4]. -/
theorem c1_parsers_agree_amended_witness :
    Bot.parse_episode_range ("2-4".toList) =
      (Helper.get_episodes (stripSpaces ("2-4".toList))).take 10 ∧
    CompleteBot.parse_episode_range ("2-4".toList) =
      Helper.get_episodes (stripSpaces ("2-4".toList)) :=
  ⟨(c1_parsers_agree_amended ("2-4".toList)).1,
   (c1_parsers_agree_amended ("2-4".toList)).2 (by decide) (by decide) (by decide)⟩

/-- C8: bot.py parse_episode_range always returns a strictly increasing (hence
duplicate-free) list of at most 10 integers, and when the underlying parse of
any part fails (malformed range, non-numeric part) it returns the empty list
instead of propagating the error. -/
theorem c8_parse_episode_range_wellformed (s : List Char) :
    List.Sorted (· < ·) (Bot.parse_episode_range s) ∧
    (Bot.parse_episode_range s).Nodup ∧
    (Bot.parse_episode_range s).length ≤ 10 ∧
    (Bot.parseParts (pySplit ',' (stripSpaces s)) = none →
      Bot.parse_episode_range s = []) := by
  unfold Bot.parse_episode_range
  cases h : Bot.parseParts (pySplit ',' (stripSpaces s)) with
  | none => simp
  | some eps =>
    have hsorted : List.Sorted (· < ·) ((pySortedSet eps).take 10) :=
      List.Pairwise.sublist (List.take_sublist 10 (pySortedSet eps)) (pySortedSet_sorted eps)
    exact ⟨hsorted, hsorted.nodup, List.length_take_le 10 (pySortedSet eps), by simp⟩

/-- Concrete instance of C8 at the unparseable input abc, where the parser
returns the empty list. -/
theorem c8_parse_episode_range_wellformed_witness :
    List.Sorted (· < ·) (Bot.parse_episode_range ("abc".toList)) ∧
    (Bot.parse_episode_range ("abc".toList)).Nodup ∧
    (Bot.parse_episode_range ("abc".toList)).length ≤ 10 ∧
    Bot.parse_episode_range ("abc".toList) = [] :=
  ⟨(c8_parse_episode_range_wellformed ("abc".toList)).1,
   (c8_parse_episode_range_wellformed ("abc".toList)).2.1,
   (c8_parse_episode_range_wellformed ("abc".toList)).2.2.1,
   (c8_parse_episode_range_wellformed ("abc".toList)).2.2.2 (by decide)⟩

/-! ## The AnimeHeaven scraper (plugins/scraper.py)

BeautifulSoup and the regex engine are oracles: each page structure records
the outcome of the selector queries the code performs on it, while the
control flow, string manipulation and list processing around them are
translated from the source. -/

namespace Scraper

/-- The site base URL, plugins/scraper.py line 58. -/
def baseUrl : List Char := "https://animeheaven.me".toList

/-- urllib.parse.urljoin, modelled for the shapes this code produces: a
reference that carries its own scheme is returned unchanged, any other
reference is resolved against the base by prefixing (full RFC 3986 relative
resolution is abstracted). -/
def pyUrljoin (base rel : List Char) : List Char :=
  let pre := rel.takeWhile (fun c => decide (c ≠ ':') && decide (c ≠ '/'))
  if !pre.isEmpty && (rel.drop pre.length).head? = some ':' then rel
  else if rel.head? = some '/' then base ++ rel
  else base ++ '/' :: rel

/-- Python str.split with no argument: the maximal whitespace-free words. -/
def pyWords (s : List Char) : List (List Char) :=
  (s.foldr
    (fun c ws =>
      if c.isWhitespace then [] :: ws
      else
        match ws with
        | [] => [[c]]
        | w :: rest => (c :: w) :: rest)
    []).filter (fun w => !w.isEmpty)

/-- Python str.join with a one-space separator. -/
def joinSpaces : List (List Char) → List Char
  | [] => []
  | [w] => w
  | w :: ws => w ++ ' ' :: joinSpaces ws

/-- Title cleanup in search(), scraper.py lines 131-132: newlines and tabs
become spaces, the ends are stripped, and inner whitespace runs collapse to
single spaces. -/
def cleanTitle (t : List Char) : List Char :=
  joinSpaces (pyWords (pyStrip (t.map (fun c => if c = '\n' ∨ c = '\t' then ' ' else c))))

/-- An anchor-like element as search() inspects it.  The BeautifulSoup Tag
methods are pre-evaluated fields: the href and title attributes, the element
text, the text of the parent element (none when there is no parent), and the
src of the first img descendant (none when there is no such img or it has no
src attribute).  A Tag always has the get attribute, so the hasattr test on
line 96 always takes the first branch and the inspected link is the item
itself. -/
structure ANode where
  href : Option (List Char)
  titleAttr : Option (List Char)
  text : List Char
  parentText : Option (List Char)
  imgSrc : Option (List Char)
deriving DecidableEq

/-- A result dictionary built by search(), scraper.py lines 148-155. -/
structure SearchResult where
  id : List Char
  title : List Char
  url : List Char
  image : List Char
  released : List Char
  source : List Char
deriving DecidableEq

/-- Title fallback in search(), scraper.py lines 119-128: the stripped text of
the link, else the stripped text of its parent, else empty. -/
def fallbackTitle (item : ANode) : List Char :=
  if !(pyStrip item.text).isEmpty then pyStrip item.text
  else
    match item.parentText with
    | some pt => if !(pyStrip pt).isEmpty then pyStrip pt else []
    | none => []

/-- Per-item parsing in search(), scraper.py lines 94-159; the continue paths
of the loop are modelled as none. -/
def parseItem (item : ANode) : Option SearchResult :=
  match item.href with
  | none => none
  | some href =>
    if !isSubstr ("anime.php".toList) href then none
    else if !href.contains '?' then none
    else
      let animeCode := (pySplit '?' href).getD 1 []
      let titleRaw :=
        match item.titleAttr with
        | some t => if !t.isEmpty then t else fallbackTitle item
        | none => fallbackTitle item
      let title := cleanTitle titleRaw
      if title.length < 2 then none
      else
        let imageUrl :=
          match item.imgSrc with
          | some src =>
            if src.isEmpty then []
            else if ("http".toList).isPrefixOf src then src
            else pyUrljoin baseUrl src
          | none => []
        some { id := animeCode, title := title.take 100, url := pyUrljoin baseUrl href,
               image := imageUrl, released := ("Unknown".toList),
               source := ("animeheaven".toList) }

/-- The seen-set deduplication loop used throughout scraper.py, keeping the
first element carrying each key. -/
def dedupByKeyAux {α κ : Type} [DecidableEq κ] (key : α → κ) :
    List κ → List α → List α
  | _, [] => []
  | seen, x :: xs =>
    if key x ∈ seen then dedupByKeyAux key seen xs
    else x :: dedupByKeyAux key (key x :: seen) xs

/-- Deduplication by key starting from an empty seen set. -/
def dedupByKey {α κ : Type} [DecidableEq κ] (key : α → κ) (l : List α) : List α :=
  dedupByKeyAux key [] l

theorem mem_seen_of_mem_dedupByKeyAux {α κ : Type} [DecidableEq κ] (key : α → κ) :
    ∀ (l : List α) (seen : List κ) (x : α), x ∈ dedupByKeyAux key seen l → key x ∉ seen := by
  intro l
  induction l with
  | nil =>
    intro seen x h
    simp [dedupByKeyAux] at h
  | cons a as ih =>
    intro seen x h
    simp only [dedupByKeyAux] at h
    split at h
    · exact ih seen x h
    · rename_i hk
      rcases List.mem_cons.mp h with rfl | h2
      · exact hk
      · intro hx
        exact (ih _ x h2) (List.mem_cons_of_mem _ hx)

theorem nodup_map_key_dedupByKeyAux {α κ : Type} [DecidableEq κ] (key : α → κ) :
    ∀ (l : List α) (seen : List κ), ((dedupByKeyAux key seen l).map key).Nodup := by
  intro l
  induction l with
  | nil =>
    intro seen
    simp [dedupByKeyAux]
  | cons a as ih =>
    intro seen
    simp only [dedupByKeyAux]
    split
    · exact ih seen
    · simp only [List.map_cons, List.nodup_cons]
      refine ⟨?_, ih _⟩
      intro hmem
      rcases List.mem_map.mp hmem with ⟨y, hy, hky⟩
      refine (mem_seen_of_mem_dedupByKeyAux key as _ y hy) ?_
      rw [hky]
      exact List.mem_cons_self _ _

theorem nodup_map_key_dedupByKey {α κ : Type} [DecidableEq κ] (key : α → κ)
    (l : List α) : ((dedupByKey key l).map key).Nodup :=
  nodup_map_key_dedupByKeyAux key l []

/-- The selector queries search() performs on the result page, pre-evaluated.
gridItems holds the grid selectors of line 82, animePhpAnchors the anchor
selector of line 86, allAnchors every anchor with an href (line 90), and
divAnimeLinks holds, for each div of the page, its first descendant anchor
whose href contains anime.php (line 167), none when a div has no such
anchor. -/
structure SearchSoup where
  gridItems : List ANode
  animePhpAnchors : List ANode
  allAnchors : List ANode
  divAnimeLinks : List (Option ANode)
deriving DecidableEq

/-- A search HTTP response: whether raise_for_status passes (statusOk is
false both for a network failure and for an error status), the page text, and
the parsed soup. -/
structure SearchResponse where
  statusOk : Bool
  text : List Char
  soup : SearchSoup
deriving DecidableEq

/-- The failures a scraping routine can raise internally. -/
inductive ScrapeError
  | httpError
  | sourceError
deriving DecidableEq

/-- The abuse-protection marker tested on scraper.py line 74. -/
def abuseMarker : List Char := "abuse protection".toList

/-- Selector cascade of search(), scraper.py lines 82-91: the grid selectors,
else the dedicated anchor selector, else all anchors filtered to those whose
href contains anime.php. -/
def searchItems (soup : SearchSoup) : List ANode :=
  if !soup.gridItems.isEmpty then soup.gridItems
  else if !soup.animePhpAnchors.isEmpty then soup.animePhpAnchors
  else
    soup.allAnchors.filter (fun a =>
      match a.href with
      | some h => isSubstr ("anime.php".toList) h
      | none => false)

/-- The div fallback of search(), scraper.py lines 166-184, applied to the
first anime.php anchor of one div; the inner bare except is modelled as
none. -/
def parseDivLink (a? : Option ANode) : Option SearchResult :=
  match a? with
  | none => none
  | some a =>
    match a.href with
    | none => none
    | some href =>
      let animeCode := if href.contains '?' then (pySplit '?' href).getD 1 [] else []
      let title :=
        match a.titleAttr with
        | some t => if !t.isEmpty then t else pyStrip a.text
        | none => pyStrip a.text
      if title.isEmpty then none
      else
        some { id := animeCode, title := title.take 100, url := pyUrljoin baseUrl href,
               image := [], released := ("Unknown".toList),
               source := ("animeheaven".toList) }

/-- The primary extraction of search(), scraper.py lines 93-159: the first 20
selected items parsed one by one. -/
def searchPrimary (soup : SearchSoup) : List SearchResult :=
  ((searchItems soup).take 20).filterMap parseItem

/-- The try-block of AnimeHeavenScraper.search, scraper.py lines 63-194:
request, abuse check, selector cascade, div fallback when the primary
extraction found nothing, deduplication by url, cap at 15. -/
def searchBody (r : SearchResponse) : Except ScrapeError (List SearchResult) :=
  if !r.statusOk then .error .httpError
  else if isSubstr abuseMarker (pyLower r.text) then .error .sourceError
  else
    let results := searchPrimary r.soup
    let results :=
      if results.isEmpty then r.soup.divAnimeLinks.filterMap parseDivLink
      else results
    .ok ((dedupByKey SearchResult.url results).take 15)

/-- AnimeHeavenScraper.search, scraper.py lines 61-199: the body above with
every failure swallowed into an empty result list by the outer except. -/
def search (r : SearchResponse) : List SearchResult :=
  match searchBody r with
  | .ok l => l
  | .error _ => []

end Scraper

namespace Scraper

/-- Leading ASCII digit run of a character list. -/
def leadingDigits (l : List Char) : List Char := l.takeWhile Char.isDigit

/-- The regex search for e= followed by digits, scraper.py line 233: leftmost
occurrence of the letter e, an equals sign and a nonempty digit run, returning
the value of the maximal digit run. -/
def findEParam : List Char → Option Nat
  | [] => none
  | c :: rest =>
    if c = 'e' then
      match rest with
      | '=' :: rest2 =>
        let ds := leadingDigits rest2
        if ds.isEmpty then findEParam rest else some (digitsToNat ds)
      | _ => findEParam rest
    else findEParam rest

/-- The case-insensitive regex search for the word Episode, optional
whitespace and digits, scraper.py line 240: leftmost occurrence, returning the
value of the digit run. -/
def findEpisodeNum : List Char → Option Nat
  | [] => none
  | c :: rest =>
    if ("episode".toList).isPrefixOf (pyLower (c :: rest)) then
      let after := ((c :: rest).drop 7).dropWhile Char.isWhitespace
      let ds := leadingDigits after
      if ds.isEmpty then findEpisodeNum rest else some (digitsToNat ds)
    else findEpisodeNum rest

/-- The regex search for any digit run, scraper.py lines 245 and 279: value of
the leftmost maximal digit run. -/
def findFirstNat : List Char → Option Nat
  | [] => none
  | c :: rest =>
    if c.isDigit then some (digitsToNat (leadingDigits (c :: rest)))
    else findFirstNat rest

/-- An anchor as get_episodes inspects it: its href (present, because every
collection path filters on href=True or an href lambda) and its text. -/
structure EpAnchor where
  href : List Char
  text : List Char
deriving DecidableEq

/-- An episode dictionary built by get_episodes, scraper.py lines 257-262. -/
structure EpisodeEntry where
  number : Nat
  id : List Char
  url : List Char
  title : List Char
deriving DecidableEq

/-- Episode-link parsing, scraper.py lines 221-266: the episode number is read
from the e= query parameter, else (while it is still the default 1) from an
Episode word in the link text, else from any number in the text, else it stays
1. -/
def parseEpLink (link : EpAnchor) : EpisodeEntry :=
  let href := link.href
  let num1 : Nat :=
    if href.contains '?' then
      let params := (pySplit '?' href).getD 1 []
      if isSubstr ("e=".toList) params then
        match findEParam params with
        | some n => n
        | none => 1
      else 1
    else 1
  let num2 : Nat :=
    if num1 = 1 then
      let text := pyStrip link.text
      match findEpisodeNum text with
      | some n => n
      | none =>
        match findFirstNat text with
        | some n => n
        | none => 1
    else num1
  let epTitle :=
    if (pyStrip link.text).isEmpty then ("Episode ".toList) ++ natChars num2
    else pyStrip link.text
  { number := num2, id := href, url := pyUrljoin baseUrl href, title := epTitle.take 50 }

/-- One step of the fallback loop of get_episodes, scraper.py lines 271-289:
an anchor whose lowered text mentions episode, ep, watch or view and whose
href is not a fragment is appended, numbered by the first number of its text
or by the running length plus one. -/
def epFallbackStep (acc : List EpisodeEntry) (link : EpAnchor) : List EpisodeEntry :=
  let text := pyLower (pyStrip link.text)
  if (isSubstr ("episode".toList) text || isSubstr ("ep".toList) text ||
      isSubstr ("watch".toList) text || isSubstr ("view".toList) text) &&
     !(("#".toList).isPrefixOf link.href) then
    let num :=
      match findFirstNat text with
      | some n => n
      | none => acc.length + 1
    acc ++ [{ number := num, id := link.href, url := pyUrljoin baseUrl link.href,
              title := (pyStrip link.text).take 50 }]
  else acc

/-- The whole fallback loop of get_episodes over all anchors of the page. -/
def epFallback (anchors : List EpAnchor) : List EpisodeEntry :=
  anchors.foldl epFallbackStep []

/-- Stable insertion of an entry into a list sorted by episode number. -/
def insertByNumber (e : EpisodeEntry) : List EpisodeEntry → List EpisodeEntry
  | [] => [e]
  | x :: xs => if x.number < e.number then x :: insertByNumber e xs else e :: x :: xs

/-- Python list.sort with the episode number as key: stable ascending sort,
scraper.py line 292. -/
def sortByNumber (l : List EpisodeEntry) : List EpisodeEntry :=
  l.foldr insertByNumber []

/-- The selector queries get_episodes performs, pre-evaluated.
containerAnchors is some list exactly when the select_one of line 213 finds an
episode-list container, holding the anchors with hrefs inside it; watchAnchors
holds every anchor whose href contains watch.php (line 219); allAnchors every
anchor with an href (line 271). -/
structure EpisodesSoup where
  containerAnchors : Option (List EpAnchor)
  watchAnchors : List EpAnchor
  allAnchors : List EpAnchor
deriving DecidableEq

/-- An episodes-page HTTP response. -/
structure EpisodesResponse where
  statusOk : Bool
  soup : EpisodesSoup
deriving DecidableEq

/-- Episode-link source selection, scraper.py lines 213-219: the anchors of
the episode-list container when one exists, else the watch.php anchors. -/
def chosenEpAnchors (soup : EpisodesSoup) : List EpAnchor :=
  match soup.containerAnchors with
  | some anchors => anchors
  | none => soup.watchAnchors

/-- The primary extraction of get_episodes: every chosen anchor parsed. -/
def episodesPrimary (soup : EpisodesSoup) : List EpisodeEntry :=
  (chosenEpAnchors soup).map parseEpLink

/-- The try-block of AnimeHeavenScraper.get_episodes, scraper.py lines
203-302: request, primary extraction, fallback loop when the primary
extraction found nothing, stable sort by number, deduplication by url. -/
def getEpisodesBody (r : EpisodesResponse) : Except ScrapeError (List EpisodeEntry) :=
  if !r.statusOk then .error .httpError
  else
    let episodes := episodesPrimary r.soup
    let episodes :=
      if episodes.isEmpty then epFallback r.soup.allAnchors
      else episodes
    .ok (dedupByKey EpisodeEntry.url (sortByNumber episodes))

/-- AnimeHeavenScraper.get_episodes, scraper.py lines 201-306: unlike search,
an internal failure is re-raised as a SourceError. -/
def get_episodes (r : EpisodesResponse) : Except ScrapeError (List EpisodeEntry) :=
  match getEpisodesBody r with
  | .ok l => .ok l
  | .error _ => .error .sourceError

end Scraper

namespace Scraper

/-- Quality label from the link text, scraper.py lines 379-387. -/
def qualityFromText (text : List Char) : List Char :=
  if isSubstr ("1080".toList) text || isSubstr ("full hd".toList) text then "1080p".toList
  else if isSubstr ("720".toList) text then "720p".toList
  else if isSubstr ("480".toList) text || isSubstr ("sd".toList) text then "480p".toList
  else if isSubstr ("360".toList) text then "360p".toList
  else "Unknown".toList

/-- A source child of a video tag: its src attribute and the title and
data-quality attributes consulted for the quality label. -/
structure VSource where
  src : Option (List Char)
  titleAttr : Option (List Char)
  dataQuality : Option (List Char)
deriving DecidableEq

/-- The element found by the player select_one of scraper.py line 326: an
iframe with its src, a video tag with its source children and own src, or
some other matching element (for which neither branch of lines 330-363
runs). -/
inductive PlayerNode
  | iframe (src : Option (List Char))
  | video (sources : List VSource) (src : Option (List Char))
  | other
deriving DecidableEq

/-- An anchor as the download-button loop inspects it: link.get of href with
an empty default, and the link text. -/
structure DlAnchor where
  href : List Char
  text : List Char
deriving DecidableEq

/-- One element of the download-section selector of scraper.py line 366: its
anchor descendants with hrefs, and the element itself viewed as an anchor
(used when it has no anchor descendants, since a Tag always has the get
attribute). -/
structure DlSection where
  anchors : List DlAnchor
  selfLink : DlAnchor
deriving DecidableEq

/-- A link dictionary built by get_download_links; typ models the dictionary
key named type. -/
structure DlLink where
  url : List Char
  quality : List Char
  typ : List Char
  source : List Char
deriving DecidableEq

/-- Quality of a video source tag, scraper.py line 347: the title attribute
when it is nonempty, else the data-quality attribute, defaulting to
Unknown. -/
def vsourceQuality (so : VSource) : List Char :=
  let t := so.titleAttr.getD []
  if t.isEmpty then so.dataQuality.getD ("Unknown".toList) else t

/-- The episode page URL construction of scraper.py lines 312-317. -/
def dlPageUrl (episodePath : List Char) : List Char :=
  if ("http".toList).isPrefixOf episodePath then episodePath
  else if ("/".toList).isPrefixOf episodePath then baseUrl ++ episodePath
  else baseUrl ++ '/' :: episodePath

/-- The video-player extraction of scraper.py lines 326-363. -/
def playerLinks (pageUrl : List Char) : Option PlayerNode → List DlLink
  | none => []
  | some (.iframe src) =>
    match src with
    | some s =>
      if s.isEmpty then []
      else [{ url := if ("http".toList).isPrefixOf s then s else pyUrljoin pageUrl s,
              quality := ("HD".toList), typ := ("iframe".toList),
              source := ("animeheaven".toList) }]
    | none => []
  | some (.video sources vsrc) =>
    (sources.filterMap (fun so =>
      match so.src with
      | some s =>
        if s.isEmpty then none
        else some { url := if ("http".toList).isPrefixOf s then s else pyUrljoin pageUrl s,
                    quality := vsourceQuality so, typ := ("direct".toList),
                    source := ("animeheaven".toList) }
      | none => none))
    ++ (match vsrc with
        | some s =>
          if s.isEmpty then []
          else [{ url := if ("http".toList).isPrefixOf s then s else pyUrljoin pageUrl s,
                  quality := ("HD".toList), typ := ("direct".toList),
                  source := ("animeheaven".toList) }]
        | none => [])
  | some .other => []

/-- The anchors a download section contributes, scraper.py lines 369-372: its
descendants, or the section itself when it has none. -/
def sectionAnchors (sec : DlSection) : List DlAnchor :=
  if sec.anchors.isEmpty then [sec.selfLink] else sec.anchors

/-- One anchor of a download section, scraper.py lines 374-395: kept when its
href mentions a video extension or stream or video, with a quality read from
the link text. -/
def anchorLink (pageUrl : List Char) (l : DlAnchor) : Option DlLink :=
  let href := l.href
  let text := pyLower (pyStrip l.text)
  if !href.isEmpty &&
     (isSubstr (".mp4".toList) (pyLower href) || isSubstr (".m3u8".toList) (pyLower href) ||
      isSubstr (".mkv".toList) (pyLower href) || isSubstr ("stream".toList) (pyLower href) ||
      isSubstr ("video".toList) (pyLower href)) then
    some { url := if ("http".toList).isPrefixOf href then href else pyUrljoin pageUrl href,
           quality := qualityFromText text, typ := ("direct".toList),
           source := ("animeheaven".toList) }
  else none

/-- All links of one download section. -/
def sectionLinks (pageUrl : List Char) (sec : DlSection) : List DlLink :=
  (sectionAnchors sec).filterMap (anchorLink pageUrl)

/-- One regex match of the script extraction, scraper.py lines 408-426:
scheme-relative matches get https, other relative matches are joined, blob
URLs are skipped. -/
def scriptLink (pageUrl : List Char) (m : List Char) : Option DlLink :=
  if m.isEmpty then none
  else
    let v :=
      if ("http".toList).isPrefixOf m then m
      else if ("//".toList).isPrefixOf m then ("https:".toList) ++ m
      else pyUrljoin pageUrl m
    if ("blob:".toList).isPrefixOf v then none
    else some { url := v, quality := ("HD".toList), typ := ("direct".toList),
                source := ("animeheaven".toList) }

/-- All links from the script regex extraction. -/
def scriptLinks (pageUrl : List Char) (ms : List (List Char)) : List DlLink :=
  ms.filterMap (scriptLink pageUrl)

/-- The selector queries get_download_links performs, pre-evaluated.
scriptMatches holds the matches of the four regex patterns of lines 401-406
over the inline script text, in pattern order (the regex engine is
abstracted). -/
structure DlSoup where
  player : Option PlayerNode
  downloadSections : List DlSection
  scriptMatches : List (List Char)
deriving DecidableEq

/-- An episode-page HTTP response. -/
structure DlResponse where
  statusOk : Bool
  soup : DlSoup
deriving DecidableEq

/-- The try-block of AnimeHeavenScraper.get_download_links, scraper.py lines
310-436: the player extraction, the download-section extraction and the
script regex extraction all run unconditionally and their links accumulate,
then deduplication by url and a cap of 10. -/
def dlBody (episodePath : List Char) (r : DlResponse) : Except ScrapeError (List DlLink) :=
  let url := dlPageUrl episodePath
  if !r.statusOk then .error .httpError
  else
    let links := playerLinks url r.soup.player
        ++ (r.soup.downloadSections.map (sectionLinks url)).flatten
        ++ scriptLinks url r.soup.scriptMatches
    .ok ((dedupByKey DlLink.url links).take 10)

/-- AnimeHeavenScraper.get_download_links, scraper.py lines 308-446: any
internal failure is swallowed and the episode page itself is returned as a
single fallback entry of type page. -/
def get_download_links (episodePath : List Char) (r : DlResponse) : List DlLink :=
  match dlBody episodePath r with
  | .ok l => l
  | .error _ =>
    [{ url := dlPageUrl episodePath, quality := ("Unknown".toList), typ := ("page".toList),
       source := ("animeheaven".toList) }]

end Scraper

namespace Scraper

/-- C2: AnimeHeavenScraper.search never propagates a failure to its caller:
whenever its body raises (network or HTTP failure, or the SourceError raised
internally on line 75 for an abuse-protection page) the caller receives the
empty list; in particular every response whose lowered text contains the
abuse-protection marker yields the empty list. -/
theorem c2_search_swallows_errors (r : SearchResponse) :
    (∀ e, searchBody r = .error e → search r = []) ∧
    (isSubstr abuseMarker (pyLower r.text) = true → search r = []) := by
  constructor
  · intro e he
    simp [search, he]
  · intro ha
    by_cases hs : r.statusOk = true
    · have hb : searchBody r = .error .sourceError := by
        simp [searchBody, hs, ha]
      simp [search, hb]
    · have hs' : r.statusOk = false := by
        simpa using hs
      have hb : searchBody r = .error .httpError := by
        simp [searchBody, hs']
      simp [search, hb]

/-- A concrete abuse-protection response with an otherwise well-formed result
grid. -/
def abuseResponse : SearchResponse :=
  { statusOk := true,
    text := ("You have triggered Abuse Protection".toList),
    soup :=
      { gridItems := [{ href := some ("anime.php?nc7bk".toList), titleAttr := none,
                        text := ("Naruto Shippuden".toList), parentText := none,
                        imgSrc := none }],
        animePhpAnchors := [], allAnchors := [], divAnimeLinks := [] } }

/-- Concrete instance of C2: the abuse-protection response produces the empty
result list even though its grid contains a parseable anime entry. -/
theorem c2_search_swallows_errors_witness : search abuseResponse = [] :=
  (c2_search_swallows_errors abuseResponse).2 (by decide)

/-- C3: AnimeHeavenScraper.get_download_links never propagates a failure: on
any internal failure it returns exactly the one fallback entry of type page
whose url is the episode page URL itself, and on success it returns at most
10 links that are pairwise distinct by url. -/
theorem c3_get_download_links_fallback (path : List Char) (r : DlResponse) :
    (∀ e, dlBody path r = .error e →
      get_download_links path r =
        [{ url := dlPageUrl path, quality := ("Unknown".toList), typ := ("page".toList),
           source := ("animeheaven".toList) }]) ∧
    (∀ l, dlBody path r = .ok l →
      get_download_links path r = l ∧ l.length ≤ 10 ∧ (l.map DlLink.url).Nodup) := by
  constructor
  · intro e he
    simp [get_download_links, he]
  · intro l hl
    refine ⟨by simp [get_download_links, hl], ?_⟩
    by_cases hs : r.statusOk = true
    · unfold dlBody at hl
      simp only [hs, Bool.not_true, Bool.false_eq_true, if_false] at hl
      have hl' : (dedupByKey DlLink.url
          (playerLinks (dlPageUrl path) r.soup.player
            ++ (r.soup.downloadSections.map (sectionLinks (dlPageUrl path))).flatten
            ++ scriptLinks (dlPageUrl path) r.soup.scriptMatches)).take 10 = l := by
        injection hl
      subst hl'
      refine ⟨List.length_take_le _ _, ?_⟩
      rw [List.map_take]
      exact List.Nodup.sublist (List.take_sublist _ _)
        (nodup_map_key_dedupByKey DlLink.url _)
    · have hs' : r.statusOk = false := by simpa using hs
      unfold dlBody at hl
      simp [hs'] at hl

/-- A concrete failing download-links request. -/
def dlFailedResponse : DlResponse :=
  { statusOk := false,
    soup := { player := none, downloadSections := [], scriptMatches := [] } }

/-- Concrete instance of C3: a failed request for watch.php?e1 yields exactly
the page fallback entry. -/
theorem c3_get_download_links_fallback_witness :
    get_download_links ("watch.php?e1".toList) dlFailedResponse =
      [{ url := dlPageUrl ("watch.php?e1".toList), quality := ("Unknown".toList),
         typ := ("page".toList), source := ("animeheaven".toList) }] :=
  (c3_get_download_links_fallback ("watch.php?e1".toList) dlFailedResponse).1
    .httpError rfl

end Scraper

namespace Scraper

/-- An episode page whose player is an iframe with a source and whose inline
script also matches a video URL. -/
def dlPlayerAndScript : DlResponse :=
  { statusOk := true,
    soup := { player := some (.iframe (some ("https://embed.example/e1".toList))),
              downloadSections := [],
              scriptMatches := [("https://video.example/ep1.mp4".toList)] } }

/-- The same page with no script matches. -/
def dlPlayerOnly : DlResponse :=
  { statusOk := true,
    soup := { player := some (.iframe (some ("https://embed.example/e1".toList))),
              downloadSections := [],
              scriptMatches := [] } }

/-- C4 is false as stated for get_download_links: the script regex step is
not guarded by the emptiness of the preceding steps.  On a page whose video
player already produced a link, the script matches still change the output,
and the script-derived URL appears in the result next to the player link. -/
theorem c4_script_regex_not_guarded :
    playerLinks (dlPageUrl ("watch.php?e1".toList)) dlPlayerAndScript.soup.player ≠ [] ∧
    ("https://video.example/ep1.mp4".toList) ∈
      (get_download_links ("watch.php?e1".toList) dlPlayerAndScript).map DlLink.url ∧
    get_download_links ("watch.php?e1".toList) dlPlayerAndScript ≠
      get_download_links ("watch.php?e1".toList) dlPlayerOnly :=
  ⟨by decide, by decide, by decide⟩

/-- C4 (amended): in search and get_episodes the fallback extraction steps
are strictly guarded: each alternative selector is consulted only when the
preceding one found nothing, and the last-resort extraction (the div loop of
search, the all-anchor loop of get_episodes) cannot affect the result when
the primary extraction produced results.  In get_download_links, by
contrast, the three extraction steps (video player, download buttons, script
regex) all run unconditionally and their links accumulate. -/
theorem c4_selector_chain_amended :
    (∀ soup : SearchSoup,
      (soup.gridItems ≠ [] → searchItems soup = soup.gridItems) ∧
      (soup.gridItems = [] → soup.animePhpAnchors ≠ [] →
        searchItems soup = soup.animePhpAnchors) ∧
      (soup.gridItems = [] → soup.animePhpAnchors = [] →
        searchItems soup = soup.allAnchors.filter (fun a =>
          match a.href with
          | some h => isSubstr ("anime.php".toList) h
          | none => false))) ∧
    (∀ (r : SearchResponse) (d1 d2 : List (Option ANode)),
      searchPrimary r.soup ≠ [] →
      search { r with soup := { r.soup with divAnimeLinks := d1 } } =
        search { r with soup := { r.soup with divAnimeLinks := d2 } }) ∧
    (∀ (soup : EpisodesSoup) (l : List EpAnchor),
      soup.containerAnchors = some l → chosenEpAnchors soup = l) ∧
    (∀ (r : EpisodesResponse) (a1 a2 : List EpAnchor),
      episodesPrimary r.soup ≠ [] →
      get_episodes { r with soup := { r.soup with allAnchors := a1 } } =
        get_episodes { r with soup := { r.soup with allAnchors := a2 } }) ∧
    (∀ (path : List Char) (r : DlResponse), r.statusOk = true →
      dlBody path r = .ok ((dedupByKey DlLink.url
        (playerLinks (dlPageUrl path) r.soup.player
          ++ (r.soup.downloadSections.map (sectionLinks (dlPageUrl path))).flatten
          ++ scriptLinks (dlPageUrl path) r.soup.scriptMatches)).take 10)) := by
  refine ⟨?_, ?_, ?_, ?_, ?_⟩
  · intro soup
    refine ⟨?_, ?_, ?_⟩
    · intro hg
      have hg' : soup.gridItems.isEmpty = false := by
        cases h : soup.gridItems with
        | nil => exact absurd h hg
        | cons a as => simp
      simp [searchItems, hg']
    · intro hg ha
      have ha' : soup.animePhpAnchors.isEmpty = false := by
        cases h : soup.animePhpAnchors with
        | nil => exact absurd h ha
        | cons a as => simp
      simp [searchItems, hg, ha']
    · intro hg ha
      simp [searchItems, hg, ha]
  · intro r d1 d2 hne
    obtain ⟨ok, tx, soup⟩ := r
    obtain ⟨g, ap, al, dl⟩ := soup
    have h1 : searchPrimary ⟨g, ap, al, d1⟩ = searchPrimary ⟨g, ap, al, dl⟩ := rfl
    have h2 : searchPrimary ⟨g, ap, al, d2⟩ = searchPrimary ⟨g, ap, al, dl⟩ := rfl
    have hne' : (searchPrimary ⟨g, ap, al, dl⟩).isEmpty = false := by
      cases h : searchPrimary ⟨g, ap, al, dl⟩ with
      | nil => exact absurd h hne
      | cons a as => simp
    by_cases hok : ok = true
    · by_cases hab : isSubstr abuseMarker (pyLower tx) = true
      · simp [search, searchBody, hok, hab]
      · have hab' : isSubstr abuseMarker (pyLower tx) = false := by simpa using hab
        simp [search, searchBody, hok, hab', h1, h2, hne']
    · have hok' : ok = false := by simpa using hok
      simp [search, searchBody, hok']
  · intro soup l hl
    simp [chosenEpAnchors, hl]
  · intro r a1 a2 hne
    obtain ⟨ok, soup⟩ := r
    obtain ⟨ca, wa, al⟩ := soup
    have h1 : episodesPrimary ⟨ca, wa, a1⟩ = episodesPrimary ⟨ca, wa, al⟩ := rfl
    have h2 : episodesPrimary ⟨ca, wa, a2⟩ = episodesPrimary ⟨ca, wa, al⟩ := rfl
    have hne' : (episodesPrimary ⟨ca, wa, al⟩).isEmpty = false := by
      cases h : episodesPrimary ⟨ca, wa, al⟩ with
      | nil => exact absurd h hne
      | cons a as => simp
    by_cases hok : ok = true
    · simp [get_episodes, getEpisodesBody, hok, h1, h2, hne']
    · have hok' : ok = false := by simpa using hok
      simp [get_episodes, getEpisodesBody, hok']
  · intro path r hs
    simp [dlBody, hs]

/-- A search soup whose grid selector already matches. -/
def gridOnlySoup : SearchSoup :=
  { gridItems := [{ href := some ("anime.php?nc7bk".toList), titleAttr := none,
                    text := ("Naruto Shippuden".toList), parentText := none, imgSrc := none }],
    animePhpAnchors := [], allAnchors := [], divAnimeLinks := [] }

/-- A successful search response built on the grid soup. -/
def gridOnlyResponse : SearchResponse :=
  { statusOk := true, text := ("results".toList), soup := gridOnlySoup }

/-- An episodes soup with an episode-list container. -/
def containerSoup : EpisodesSoup :=
  { containerAnchors := some [{ href := ("watch.php?nc7bk&e=1".toList),
                                text := ("Episode 1".toList) }],
    watchAnchors := [], allAnchors := [] }

/-- A successful episodes response built on the container soup. -/
def containerResponse : EpisodesResponse :=
  { statusOk := true, soup := containerSoup }

/-- Concrete instance of the amended C4: every guarded branch instantiated at
a page on which its hypothesis holds. -/
theorem c4_selector_chain_amended_witness :
    searchItems gridOnlySoup = gridOnlySoup.gridItems ∧
    search { gridOnlyResponse with
             soup := { gridOnlyResponse.soup with divAnimeLinks := [none] } } =
      search { gridOnlyResponse with
               soup := { gridOnlyResponse.soup with divAnimeLinks := [] } } ∧
    chosenEpAnchors containerSoup =
      [{ href := ("watch.php?nc7bk&e=1".toList), text := ("Episode 1".toList) }] ∧
    get_episodes { containerResponse with
                   soup := { containerResponse.soup with allAnchors := [] } } =
      get_episodes { containerResponse with
                     soup := { containerResponse.soup with
                               allAnchors := [{ href := ("x".toList),
                                                text := ("watch 2".toList) }] } } ∧
    dlBody ("watch.php?e1".toList) dlPlayerAndScript =
      .ok ((dedupByKey DlLink.url
        (playerLinks (dlPageUrl ("watch.php?e1".toList)) dlPlayerAndScript.soup.player
          ++ (dlPlayerAndScript.soup.downloadSections.map
                (sectionLinks (dlPageUrl ("watch.php?e1".toList)))).flatten
          ++ scriptLinks (dlPageUrl ("watch.php?e1".toList))
               dlPlayerAndScript.soup.scriptMatches)).take 10) :=
  ⟨(c4_selector_chain_amended.1 gridOnlySoup).1 (by decide),
   c4_selector_chain_amended.2.1 gridOnlyResponse [none] [] (by decide),
   c4_selector_chain_amended.2.2.1 containerSoup _ rfl,
   c4_selector_chain_amended.2.2.2.1 containerResponse [] [⟨("x".toList), ("watch 2".toList)⟩]
     (by decide),
   c4_selector_chain_amended.2.2.2.2 ("watch.php?e1".toList) dlPlayerAndScript rfl⟩

end Scraper

/-! ## The working downloader (plugins/working_scraper.py), claim C5 -/

namespace WorkingScraper

/-- The streamed body-writing loop of AnimeHeavenDownloader.download_video,
working_scraper.py lines 169-172: each nonempty chunk of the response stream
is appended to the file in order; empty keep-alive chunks are skipped. -/
def writeChunks (chunks : List (List Nat)) : List Nat :=
  chunks.foldl (fun file c => if c.isEmpty then file else file ++ c) []

/-- AnimeHeavenDownloader.download_video, working_scraper.py lines 154-182:
the response is none when requests.get raises; on status 200 the chunk
stream is written to the file and the filename returned; on any other status
(or an exception) the result is none and no file is written.  The second
component is the content of the local file. -/
def download_video (filename : List Char) (resp : Option (Nat × List (List Nat))) :
    Option (List Char) × List Nat :=
  match resp with
  | none => (none, [])
  | some (status, chunks) =>
    if status = 200 then (some filename, writeChunks chunks)
    else (none, [])

theorem writeChunks_foldl_eq (chunks : List (List Nat)) :
    ∀ acc : List Nat,
      chunks.foldl (fun file c => if c.isEmpty then file else file ++ c) acc =
        acc ++ (chunks.filter (fun c => !c.isEmpty)).flatten := by
  induction chunks with
  | nil =>
    intro acc
    simp
  | cons c cs ih =>
    intro acc
    cases hc : c.isEmpty with
    | true =>
      have hc' : c = [] := List.isEmpty_iff.mp hc
      subst hc'
      rw [List.foldl_cons,
        show (if ([] : List Nat).isEmpty = true then acc else acc ++ []) = acc from by simp,
        ih acc]
      simp [List.filter_cons]
    | false =>
      rw [List.foldl_cons,
        show (if c.isEmpty = true then acc else acc ++ c) = acc ++ c from by simp [hc],
        ih (acc ++ c)]
      simp [List.filter_cons, hc, List.append_assoc]

theorem writeChunks_eq_flatten (chunks : List (List Nat)) :
    writeChunks chunks = (chunks.filter (fun c => !c.isEmpty)).flatten := by
  have h := writeChunks_foldl_eq chunks []
  simpa [writeChunks] using h

/-- C5: download_video is a sequential byte-stream write: on HTTP status 200
the final file content is the concatenation of the nonempty chunks in stream
order and the filename is returned; on any other status, or when the request
raises, nothing is written and the result is none. -/
theorem c5_download_video_stream (filename : List Char) (status : Nat)
    (chunks : List (List Nat)) :
    (status = 200 →
      download_video filename (some (status, chunks)) =
        (some filename, (chunks.filter (fun c => !c.isEmpty)).flatten)) ∧
    (status ≠ 200 →
      download_video filename (some (status, chunks)) = (none, [])) ∧
    download_video filename none = (none, []) := by
  refine ⟨?_, ?_, rfl⟩
  · intro h
    simp [download_video, h, writeChunks_eq_flatten]
  · intro h
    simp [download_video, h]

/-- Concrete instance of C5: a 200 response whose stream has an empty
keep-alive chunk in the middle. -/
theorem c5_download_video_stream_witness :
    download_video ("Episode_1.mp4".toList) (some (200, [[1, 2], [], [3]])) =
      (some ("Episode_1.mp4".toList), [1, 2, 3]) ∧
    download_video ("Episode_1.mp4".toList) (some (404, [[1, 2]])) =
      (none, []) := by
  constructor
  · rw [(c5_download_video_stream ("Episode_1.mp4".toList) 200 [[1, 2], [], [3]]).1 rfl]
    decide
  · exact (c5_download_video_stream ("Episode_1.mp4".toList) 404 [[1, 2]]).2.1 (by decide)

end WorkingScraper

/-! ## The SQLite bookkeeping (helper/database.py), claim C6 -/

namespace Database

/-- A row of the downloads table as save_download inserts it. -/
structure DownloadRow where
  user_id : Int
  anime_title : List Char
  episodes : List Char
  download_path : List Char
deriving DecidableEq

/-- A row of the users table, restricted to the columns save_download
touches. -/
structure UserRow where
  user_id : Int
  total_downloads : Nat
deriving DecidableEq

/-- The two tables save_download touches. -/
structure DB where
  downloads : List DownloadRow
  users : List UserRow
deriving DecidableEq

/-- The three statements of the transaction in save_download, database.py
lines 66-80: insert the download row, insert-or-ignore a users row with zero
total_downloads, then add one to total_downloads of the rows of that user. -/
def save_download_body (db : DB) (uid : Int) (title eps path : List Char) : DB :=
  let db1 : DB := { db with downloads := db.downloads ++ [⟨uid, title, eps, path⟩] }
  let db2 : DB :=
    if db1.users.any (fun u => decide (u.user_id = uid)) then db1
    else { db1 with users := db1.users ++ [⟨uid, 0⟩] }
  { db2 with
    users := db2.users.map (fun u =>
      if u.user_id = uid then { u with total_downloads := u.total_downloads + 1 } else u) }

/-- DatabaseManager.save_download, database.py lines 59-89: on success the
transaction commits and True is returned; on any database error the commit is
never reached, so the database is unchanged, and False is returned. -/
def save_download (fail : Bool) (db : DB) (uid : Int) (title eps path : List Char) :
    DB × Bool :=
  if fail then (db, false)
  else (save_download_body db uid title eps path, true)

/-- The total_downloads of the first users row of a user, none when the user
has no row (the user_id column is the primary key, so there is at most one
row). -/
def userTotal (db : DB) (uid : Int) : Option Nat :=
  (db.users.find? (fun u => decide (u.user_id = uid))).map UserRow.total_downloads

theorem find?_users_update (uid : Int) (l : List UserRow) :
    (l.map (fun u =>
        if u.user_id = uid then { u with total_downloads := u.total_downloads + 1 } else u)).find?
      (fun u => decide (u.user_id = uid)) =
    (l.find? (fun u => decide (u.user_id = uid))).map
      (fun u => { u with total_downloads := u.total_downloads + 1 }) := by
  induction l with
  | nil => simp
  | cons u us ih =>
    by_cases hu : u.user_id = uid
    · simp [List.find?_cons, hu, ih]
    · simp [List.find?_cons, hu, ih]

theorem find?_eq_none_of_any_false {α : Type} (p : α → Bool) (l : List α)
    (h : l.any p = false) : l.find? p = none := by
  induction l with
  | nil => rfl
  | cons x xs ih =>
    simp only [List.any_cons, Bool.or_eq_false_iff] at h
    obtain ⟨h1, h2⟩ := h
    simp [List.find?_cons, h1, ih h2]

theorem find?_eq_some_of_any_true {α : Type} (p : α → Bool) (l : List α)
    (h : l.any p = true) : ∃ x, l.find? p = some x ∧ p x = true := by
  induction l with
  | nil => simp at h
  | cons x xs ih =>
    by_cases hx : p x = true
    · exact ⟨x, by simp [List.find?_cons, hx], hx⟩
    · have hx' : p x = false := by simpa using hx
      simp only [List.any_cons, hx', Bool.false_or] at h
      obtain ⟨y, hy1, hy2⟩ := ih h
      exact ⟨y, by simp [List.find?_cons, hx', hy1], hy2⟩

theorem find?_append_of_none {α : Type} (p : α → Bool) (l1 l2 : List α)
    (h : l1.find? p = none) : (l1 ++ l2).find? p = l2.find? p := by
  induction l1 with
  | nil => simp
  | cons x xs ih =>
    by_cases hx : p x = true
    · simp [List.find?_cons, hx] at h
    · have hx' : p x = false := by simpa using hx
      simp only [List.find?_cons, hx'] at h
      simp [List.find?_cons, hx', ih h]

theorem save_download_body_users (db : DB) (uid : Int) (title eps path : List Char) :
    (save_download_body db uid title eps path).users =
      (if db.users.any (fun u => decide (u.user_id = uid)) then db.users
       else db.users ++ [⟨uid, 0⟩]).map
        (fun u =>
          if u.user_id = uid then { u with total_downloads := u.total_downloads + 1 }
          else u) := by
  by_cases ha : db.users.any (fun u => decide (u.user_id = uid)) = true
  · simp [save_download_body, ha]
  · have ha' : db.users.any (fun u => decide (u.user_id = uid)) = false := by simpa using ha
    simp [save_download_body, ha']

/-- C6: a successful save_download appends exactly one row to the downloads
table, leaves the user with a users row whose total_downloads is exactly one
more than before (zero before, when the user had no row), and returns True;
on any database error the database is unchanged and it returns False. -/
theorem c6_save_download_effects (db : DB) (uid : Int) (title eps path : List Char) :
    (save_download false db uid title eps path).2 = true ∧
    (save_download false db uid title eps path).1.downloads =
      db.downloads ++ [⟨uid, title, eps, path⟩] ∧
    userTotal (save_download false db uid title eps path).1 uid =
      some ((userTotal db uid).getD 0 + 1) ∧
    save_download true db uid title eps path = (db, false) := by
  refine ⟨rfl, ?_, ?_, rfl⟩
  · show (save_download_body db uid title eps path).downloads = _
    simp only [save_download_body]
    split <;> rfl
  · show userTotal (save_download_body db uid title eps path) uid = _
    unfold userTotal
    rw [save_download_body_users]
    by_cases ha : db.users.any (fun u => decide (u.user_id = uid)) = true
    · rw [if_pos ha, find?_users_update]
      obtain ⟨u, hu1, hu2⟩ := find?_eq_some_of_any_true _ _ ha
      simp [hu1]
    · have ha' : db.users.any (fun u => decide (u.user_id = uid)) = false := by simpa using ha
      rw [if_neg (by simp [ha']), find?_users_update]
      have hnone : db.users.find? (fun u => decide (u.user_id = uid)) = none :=
        find?_eq_none_of_any_false _ _ ha'
      rw [find?_append_of_none _ _ _ hnone]
      simp [hnone, List.find?_cons]

end Database

/-! ## The bot download pipeline (bot.py), claim C7

The scraper, the direct-URL extractor and the downloader are oracle
parameters of the loop: getLinks models MultiSourceScraper.get_download_links
(which may raise, e.g. the NotImplementedError of a scraper without that
method), extract models DirectVideoExtractor.extract_from_url (which swallows
its own errors and returns a URL or None), and download models
SmartDownloader.download, a class bot.py imports but the repository does not
ship, returning the saved filepath or None. -/

namespace BotDownload

/-- A link dictionary as download_episodes consumes it: only the url key is
read. -/
structure Link where
  url : List Char
deriving DecidableEq

/-- The episode id string built on bot.py line 159. -/
def episodeId (animeId : List Char) (ep : Int) : List Char :=
  animeId ++ ("-episode-".toList) ++ (toString ep).toList

/-- The filename built on bot.py line 178. -/
def epFilename (ep : Int) : List Char :=
  ("Episode_".toList) ++ (toString ep).toList ++ (".mp4".toList)

/-- One link attempt, bot.py lines 172-179: the direct URL is the extracted
one when extraction yields a truthy value, else the link url itself, then the
downloader runs on it. -/
def attemptLink (extract : List Char → Option (List Char))
    (download : List Char → List Char → Option (List Char)) (ep : Int) (link : Link) :
    Option (List Char) :=
  let direct :=
    match extract link.url with
    | some u => if u.isEmpty then link.url else u
    | none => link.url
  download direct (epFilename ep)

/-- The for-loop over links, bot.py lines 168-185: each link is tried in
order and the loop breaks at the first success. -/
def tryLinks (attempt : Link → Option (List Char)) : List Link → Option (List Char)
  | [] => none
  | l :: ls =>
    match attempt l with
    | some fp => some fp
    | none => tryLinks attempt ls

/-- The per-user session bookkeeping of download_episodes: the failed episode
list and the files sent to the user. -/
structure Session where
  failed : List Int
  sent : List (Int × List Char)
deriving DecidableEq

/-- One iteration of the episode loop in download_episodes, bot.py lines
154-193: a raised link extraction, an empty link list, or exhaustion of all
links marks the episode failed; otherwise the first successful download is
sent to the user. -/
def processEpisode (getLinks : List Char → Except Unit (List Link))
    (extract : List Char → Option (List Char))
    (download : List Char → List Char → Option (List Char))
    (animeId : List Char) (st : Session) (ep : Int) : Session :=
  match getLinks (episodeId animeId ep) with
  | .error _ => { st with failed := st.failed ++ [ep] }
  | .ok links =>
    if links.isEmpty then { st with failed := st.failed ++ [ep] }
    else
      match tryLinks (attemptLink extract download ep) links with
      | some fp => { st with sent := st.sent ++ [(ep, fp)] }
      | none => { st with failed := st.failed ++ [ep] }

/-- AnimeDownloaderBot.download_episodes, bot.py lines 142-221: the episode
loop over the requested episodes in order, followed by the summary counts
(successes, then failures) computed on lines 199-200. -/
def download_episodes (getLinks : List Char → Except Unit (List Link))
    (extract : List Char → Option (List Char))
    (download : List Char → List Char → Option (List Char))
    (animeId : List Char) (episodes : List Int) : Session × Nat × Nat :=
  let st := episodes.foldl (processEpisode getLinks extract download animeId) ⟨[], []⟩
  (st, episodes.length - st.failed.length, st.failed.length)

/-- Whether an episode download succeeds: the link extraction does not raise,
the link list is nonempty, and some link attempt downloads a file. -/
def episodeSucceeds (getLinks : List Char → Except Unit (List Link))
    (extract : List Char → Option (List Char))
    (download : List Char → List Char → Option (List Char))
    (animeId : List Char) (ep : Int) : Bool :=
  match getLinks (episodeId animeId ep) with
  | .error _ => false
  | .ok links => !links.isEmpty && (tryLinks (attemptLink extract download ep) links).isSome

/-- The file forwarded for an episode: the result of the first successful
link attempt. -/
def episodeFile (getLinks : List Char → Except Unit (List Link))
    (extract : List Char → Option (List Char))
    (download : List Char → List Char → Option (List Char))
    (animeId : List Char) (ep : Int) : Option (List Char) :=
  match getLinks (episodeId animeId ep) with
  | .error _ => none
  | .ok links =>
    if links.isEmpty then none else tryLinks (attemptLink extract download ep) links

theorem tryLinks_eq_findSome? (attempt : Link → Option (List Char)) (ls : List Link) :
    tryLinks attempt ls = ls.findSome? attempt := by
  induction ls with
  | nil => rfl
  | cons l ls ih =>
    cases h : attempt l with
    | none => simp [tryLinks, h, List.findSome?_cons, ih]
    | some fp => simp [tryLinks, h, List.findSome?_cons]

theorem foldl_processEpisode (getLinks : List Char → Except Unit (List Link))
    (extract : List Char → Option (List Char))
    (download : List Char → List Char → Option (List Char))
    (animeId : List Char) (episodes : List Int) :
    ∀ st : Session,
      (episodes.foldl (processEpisode getLinks extract download animeId) st).failed =
        st.failed ++ episodes.filter
          (fun ep => !episodeSucceeds getLinks extract download animeId ep) ∧
      (episodes.foldl (processEpisode getLinks extract download animeId) st).sent =
        st.sent ++ episodes.filterMap
          (fun ep => (episodeFile getLinks extract download animeId ep).map
            (fun fp => (ep, fp))) := by
  induction episodes with
  | nil =>
    intro st
    simp
  | cons ep eps ih =>
    intro st
    rw [List.foldl_cons]
    have key :
        (processEpisode getLinks extract download animeId st ep).failed =
          st.failed ++ (if episodeSucceeds getLinks extract download animeId ep then []
            else [ep]) ∧
        (processEpisode getLinks extract download animeId st ep).sent =
          st.sent ++ (match episodeFile getLinks extract download animeId ep with
            | some fp => [(ep, fp)]
            | none => []) := by
      unfold processEpisode episodeSucceeds episodeFile
      cases hg : getLinks (episodeId animeId ep) with
      | error e => simp
      | ok links =>
        cases hl : links.isEmpty with
        | true => simp [hl]
        | false =>
          cases ht : tryLinks (attemptLink extract download ep) links with
          | none => simp [hl, ht]
          | some fp => simp [hl, ht]
    obtain ⟨k1, k2⟩ := key
    obtain ⟨i1, i2⟩ := ih (processEpisode getLinks extract download animeId st ep)
    constructor
    · rw [i1, k1, List.filter_cons]
      cases hs : episodeSucceeds getLinks extract download animeId ep <;>
        simp [hs, List.append_assoc]
    · rw [i2, k2, List.filterMap_cons]
      cases hf : episodeFile getLinks extract download animeId ep <;>
        simp [hf, List.append_assoc]

/-- C7: download_episodes processes the requested episodes in order; an
episode lands in the failed list exactly when its link extraction raised, no
links were found, or no link produced a download; the file sent to the user
for a successful episode is the one of its first successful link (the loop
over links stops at the first success); and the summary reports the number of
requested episodes minus the failures as the success count. -/
theorem c7_download_episodes_pipeline (getLinks : List Char → Except Unit (List Link))
    (extract : List Char → Option (List Char))
    (download : List Char → List Char → Option (List Char))
    (animeId : List Char) (episodes : List Int) :
    (download_episodes getLinks extract download animeId episodes).1.failed =
      episodes.filter (fun ep => !episodeSucceeds getLinks extract download animeId ep) ∧
    (download_episodes getLinks extract download animeId episodes).1.sent =
      episodes.filterMap (fun ep =>
        (episodeFile getLinks extract download animeId ep).map (fun fp => (ep, fp))) ∧
    (download_episodes getLinks extract download animeId episodes).2.1 =
      episodes.length -
        (download_episodes getLinks extract download animeId episodes).1.failed.length ∧
    (download_episodes getLinks extract download animeId episodes).2.2 =
      (download_episodes getLinks extract download animeId episodes).1.failed.length ∧
    (∀ ep ∈ episodes,
      (ep ∈ (download_episodes getLinks extract download animeId episodes).1.failed ↔
        episodeSucceeds getLinks extract download animeId ep = false)) ∧
    (∀ (attempt : Link → Option (List Char)) (ls : List Link),
      tryLinks attempt ls = ls.findSome? attempt) := by
  obtain ⟨h1, h2⟩ := foldl_processEpisode getLinks extract download animeId episodes ⟨[], []⟩
  simp only [List.nil_append] at h1 h2
  refine ⟨h1, h2, rfl, rfl, ?_, tryLinks_eq_findSome?⟩
  intro ep hep
  unfold download_episodes
  rw [h1]  -- hmm: h1 is about the foldl; goal mentions download_episodes
  constructor
  · intro hmem
    have := List.of_mem_filter hmem
    simpa using this
  · intro hfail
    exact List.mem_filter.mpr ⟨hep, by simp [hfail]⟩

end BotDownload

namespace BotDownload

/-- A concrete scraper oracle: episode 1 has a bad link then a good one,
episode 2 has no links, every other episode raises. -/
def sampleGetLinks : List Char → Except Unit (List Link) := fun eid =>
  if eid = episodeId ("naruto".toList) 1 then
    .ok [⟨("https://a/bad".toList)⟩, ⟨("https://a/ok.mp4".toList)⟩]
  else if eid = episodeId ("naruto".toList) 2 then .ok []
  else .error ()

/-- A concrete extractor oracle that never finds a direct URL. -/
def sampleExtract : List Char → Option (List Char) := fun _ => none

/-- A concrete downloader oracle succeeding only on the good URL. -/
def sampleDownload : List Char → List Char → Option (List Char) := fun url fname =>
  if url = ("https://a/ok.mp4".toList) then some fname else none

/-- Concrete instance of C7: for the sample run over episodes 1, 2, 3,
episode 1 is in the failed list exactly when it did not succeed. -/
theorem c7_download_episodes_pipeline_witness :
    1 ∈ (download_episodes sampleGetLinks sampleExtract sampleDownload
        ("naruto".toList) [1, 2, 3]).1.failed ↔
      episodeSucceeds sampleGetLinks sampleExtract sampleDownload ("naruto".toList) 1
        = false :=
  (c7_download_episodes_pipeline sampleGetLinks sampleExtract sampleDownload
    ("naruto".toList) [1, 2, 3]).2.2.2.2.1 1 (by decide)

end BotDownload

/-! ## The multi-source dispatcher (plugins/scraper.py), claim C9 -/

namespace MultiSource

/-- The two scrapers the dictionary of scraper.py lines 498-501 holds. -/
inductive ScraperId
  | animeheaven
  | animepahe
deriving DecidableEq

/-- Key lookup in the scrapers dictionary. -/
def lookupScraper (s : List Char) : Option ScraperId :=
  if s = ("animeheaven".toList) then some .animeheaven
  else if s = ("animepahe".toList) then some .animepahe
  else none

/-- The mutable state of MultiSourceScraper: the source name and the selected
scraper. -/
structure MultiSourceScraper where
  source : List Char
  current_scraper : ScraperId
deriving DecidableEq

/-- MultiSourceScraper.__init__, scraper.py lines 496-504: dictionary get
with a fallback to the animeheaven scraper when the name is not a key; the
source name field keeps the given name either way. -/
def init (source : List Char) : MultiSourceScraper :=
  { source := source,
    current_scraper := (lookupScraper source).getD .animeheaven }

/-- MultiSourceScraper.set_source, scraper.py lines 515-518: both fields are
assigned only when the name is a known key. -/
def set_source (m : MultiSourceScraper) (s : List Char) : MultiSourceScraper :=
  match lookupScraper s with
  | some sc => { source := s, current_scraper := sc }
  | none => m

/-- The shipped default source, config.py line 40. -/
def DEFAULT_SOURCE : List Char := "gogoanime".toList

/-- C9: current_scraper is always one of the two known scrapers; the shipped
default source gogoanime is not a key of the dictionary, so construction with
it (and with any other unknown name) falls back to the animeheaven scraper;
and set_source with an unknown name changes neither field. -/
theorem c9_multisource_current_scraper :
    lookupScraper DEFAULT_SOURCE = none ∧
    (init DEFAULT_SOURCE).current_scraper = ScraperId.animeheaven ∧
    (∀ s, lookupScraper s = none → (init s).current_scraper = ScraperId.animeheaven) ∧
    (∀ m s, lookupScraper s = none → set_source m s = m) ∧
    (∀ s, (init s).current_scraper = ScraperId.animeheaven ∨
      (init s).current_scraper = ScraperId.animepahe) ∧
    (∀ m s, (set_source m s).current_scraper = m.current_scraper ∨
      lookupScraper s = some (set_source m s).current_scraper) := by
  refine ⟨by decide, by decide, ?_, ?_, ?_, ?_⟩
  · intro s h
    simp [init, h]
  · intro m s h
    simp [set_source, h]
  · intro s
    unfold init
    cases h : lookupScraper s with
    | none => simp [h]
    | some sc => cases sc <;> simp [h]
  · intro m s
    cases h : lookupScraper s with
    | none => simp [set_source, h]
    | some sc => simp [set_source, h]

/-- Concrete instance of C9: constructing with the shipped default falls back
to animeheaven, and set_source with the unknown name zoro is a no-op. -/
theorem c9_multisource_current_scraper_witness :
    (init ("gogoanime".toList)).current_scraper = ScraperId.animeheaven ∧
    set_source (init ("animepahe".toList)) ("zoro".toList) =
      init ("animepahe".toList) :=
  ⟨c9_multisource_current_scraper.2.2.1 ("gogoanime".toList) (by decide),
   c9_multisource_current_scraper.2.2.2.1 (init ("animepahe".toList)) ("zoro".toList)
     (by decide)⟩

end MultiSource

/-! ## File forwarding (bot.py), claim C10 -/

namespace SendFile

/-- The observable effects of send_file_to_user. -/
inductive SendEvent
  | repliedTooLarge
  | sentDocument (episode : Int)
  | removedFile
deriving DecidableEq

/-- AnimeDownloaderBot.send_file_to_user, bot.py lines 223-247, as its stream
of observable effects: nothing happens when the file does not exist; a file
over 50MB only gets the too-large reply; otherwise reply_document is
attempted and, when it succeeds (sendOk), the local file is removed
afterwards — when it raises, the except swallows the error and the file is
not removed. -/
def send_file_to_user (fileExists : Bool) (fileSize : Nat) (sendOk : Bool)
    (episode : Int) : List SendEvent :=
  if fileExists then
    if fileSize > 50 * 1024 * 1024 then [.repliedTooLarge]
    else if sendOk then [.sentDocument episode, .removedFile]
    else [.sentDocument episode]
  else []

/-- C10: a reply_document call happens only for an existing file of at most
50MB; no document is ever sent for a missing or oversized file; and a
successful send is immediately followed by the deletion of the local file. -/
theorem c10_send_file_guarded (fileExists : Bool) (fileSize : Nat) (sendOk : Bool)
    (episode : Int) :
    (SendEvent.sentDocument episode ∈ send_file_to_user fileExists fileSize sendOk episode →
      fileExists = true ∧ fileSize ≤ 50 * 1024 * 1024) ∧
    (fileSize > 50 * 1024 * 1024 ∨ fileExists = false →
      SendEvent.sentDocument episode ∉
        send_file_to_user fileExists fileSize sendOk episode) ∧
    (sendOk = true →
      SendEvent.sentDocument episode ∈ send_file_to_user fileExists fileSize sendOk episode →
      send_file_to_user fileExists fileSize sendOk episode =
        [SendEvent.sentDocument episode, SendEvent.removedFile]) := by
  by_cases hf : fileExists = true
  · subst hf
    by_cases hsize : fileSize > 50 * 1024 * 1024
    · simp [send_file_to_user, hsize]
    · have hle : fileSize ≤ 50 * 1024 * 1024 := by omega
      by_cases hok : sendOk = true
      · subst hok
        simp [send_file_to_user, hsize, hle]
      · have hok' : sendOk = false := by simpa using hok
        subst hok'
        simp [send_file_to_user, hsize, hle]
  · have hf' : fileExists = false := by simpa using hf
    subst hf'
    simp [send_file_to_user]

/-- Concrete instance of C10: a small existing file is sent and then removed;
an oversized file is never sent. -/
theorem c10_send_file_guarded_witness :
    send_file_to_user true 1000 true 3 =
      [SendEvent.sentDocument 3, SendEvent.removedFile] ∧
    SendEvent.sentDocument 3 ∉ send_file_to_user true (51 * 1024 * 1024) true 3 :=
  ⟨(c10_send_file_guarded true 1000 true 3).2.2 rfl (by decide),
   (c10_send_file_guarded true (51 * 1024 * 1024) true 3).2.1 (Or.inl (by norm_num))⟩

end SendFile
